import Mathlib

/-!
Verification development for the fxconvert backend (`src/app.py`).

The file shallowly embeds the three Flask handlers:

* `/convert`   (`convert_currency`, app.py lines 15-37)
* `/historical` (`historical_data`, app.py lines 41-85)
* `/chatbot`   (`chatbot`, app.py lines 89-168)

Upstream HTTP responses (the Frankfurter API) are passed in as explicit
parameters: `none` models a JSON body without a `"rates"` field, `some m`
models the `"rates"` object as an association list.  Python floats are
modelled as `ℚ` (no rounding is relevant to any claim), a raised Python
exception (ZeroDivisionError / KeyError) is a dedicated result constructor,
and each handler additionally returns a `Bool` recording whether the
outbound `requests.get` call was reached.

The chatbot's three `re.search` patterns are embedded with a small
backtracking regex engine (`mrun`/`research`) whose constructs mirror the
Python `re` semantics used by the source patterns: leftmost search start,
ordered alternation, greedy `*`/`?` with full backtracking, and numbered
capture groups.  Every starred subpattern in the source is a single
character class, so the Kleene star is implemented as `Regex.many` over a
character predicate.
-/

/-- Python `\s` on the ASCII inputs at hand (space, tab, newline, CR, VT, FF). -/
def pyIsSpace (c : Char) : Bool :=
  c = ' ' || c = '\t' || c = '\n' || c = '\r' || c = '\x0b' || c = '\x0c'

/-- Python `\d` restricted to ASCII, i.e. `[0-9]`. -/
def pyIsDigit (c : Char) : Bool := c.isDigit

/-- The character class `[a-zA-Z]`. -/
def pyIsAlpha (c : Char) : Bool := c.isAlpha

/-- Python `.` without `re.DOTALL`: any character except a newline. -/
def pyDot (c : Char) : Bool := c != '\n'

/-- Python `str.lower()` on a list of characters (ASCII case mapping). -/
def pyLowerL (l : List Char) : List Char := l.map Char.toLower

/-- Python `str.lower()` on a `String`. -/
def pyLowerS (s : String) : String := String.mk (pyLowerL s.data)

/-- Python `str.upper()` on a `String` (ASCII case mapping). -/
def pyUpperS (s : String) : String := String.mk (s.data.map Char.toUpper)

/-- Python `str.strip()`: remove leading and trailing whitespace. -/
def pyStrip (l : List Char) : List Char :=
  ((l.dropWhile pyIsSpace).reverse.dropWhile pyIsSpace).reverse

/-- Shape of the regex fragment used by `app.py`'s three patterns. -/
inductive Regex where
  | eps : Regex
  | cls (p : Char → Bool) : Regex
  | lit (cs : List Char) : Regex
  | seq (a b : Regex) : Regex
  | alt (a b : Regex) : Regex
  | opt (a : Regex) : Regex
  | many (p : Char → Bool) : Regex
  | group (idx : Nat) (a : Regex) : Regex

/-- Captured groups: group number paired with the matched characters. -/
abbrev Groups := List (Nat × List Char)

/-- Greedy `p*` with backtracking, in continuation style: first try to
consume as many `p`-characters as possible, then hand shorter and shorter
matches to the continuation `k` until one succeeds. -/
def manyK (p : Char → Bool) : List Char → Groups →
    (List Char → Groups → Option Groups) → Option Groups
  | [], g, k => k [] g
  | c :: rest, g, k =>
    if p c then
      match manyK p rest g k with
      | some r => some r
      | none => k (c :: rest) g
    else k (c :: rest) g

/-- Match a literal character sequence, returning the rest of the input. -/
def litMatch : List Char → List Char → Option (List Char)
  | [], s => some s
  | _ :: _, [] => none
  | c :: cs, x :: xs => if c = x then litMatch cs xs else none

/-- Backtracking matcher.  `mrun r s g k` tries every way of matching `r`
against a leading segment of `s` in the priority order of Python `re`
(alternatives left to right, quantifiers greedy) and calls the
continuation `k` with the remaining input and accumulated groups. -/
def mrun : Regex → List Char → Groups →
    (List Char → Groups → Option Groups) → Option Groups
  | .eps, s, g, k => k s g
  | .cls _, [], _, _ => none
  | .cls p, c :: rest, g, k => if p c then k rest g else none
  | .lit cs, s, g, k =>
    match litMatch cs s with
    | some rest => k rest g
    | none => none
  | .seq a b, s, g, k => mrun a s g (fun s1 g1 => mrun b s1 g1 k)
  | .alt a b, s, g, k =>
    match mrun a s g k with
    | some r => some r
    | none => mrun b s g k
  | .opt a, s, g, k =>
    match mrun a s g k with
    | some r => some r
    | none => k s g
  | .many p, s, g, k => manyK p s g k
  | .group i a, s, g, k =>
    mrun a s g (fun s1 g1 => k s1 (g1 ++ [(i, s.take (s.length - s1.length))]))

/-- Python `re.search`: try the pattern at every start position, leftmost
first; a match may end before the end of the input. -/
def research (r : Regex) : List Char → Option Groups
  | [] =>
    match mrun r [] [] (fun _ g => some g) with
    | some g => some g
    | none => none
  | c :: rest =>
    match mrun r (c :: rest) [] (fun _ g => some g) with
    | some g => some g
    | none => research r rest

/-- Sequence a list of regexes. -/
def rchain : List Regex → Regex
  | [] => Regex.eps
  | [r] => r
  | r :: rs => Regex.seq r (rchain rs)

/-- Ordered alternation of a list of regexes (Python `|`, left to right). -/
def ralts : List Regex → Regex
  | [] => Regex.eps
  | [r] => r
  | r :: rs => Regex.alt r (ralts rs)

/-- Literal regex from a string. -/
def rlit (s : String) : Regex := Regex.lit s.data

/-- Group 1 of rule 1: `(\d+\.?\d*)`. -/
def numGroup : Regex :=
  Regex.group 1 (rchain [Regex.cls pyIsDigit, Regex.many pyIsDigit,
    Regex.opt (rlit "."), Regex.many pyIsDigit])

/-- The subpattern `[a-zA-Z]{2,}`. -/
def alpha2plus : Regex :=
  rchain [Regex.cls pyIsAlpha, Regex.cls pyIsAlpha, Regex.many pyIsAlpha]

/-- Rule 1's currency word: `[a-zA-Z]{2,}|rupee|yen|dollar|euro`. -/
def word1 : Regex :=
  ralts [alpha2plus, rlit "rupee", rlit "yen", rlit "dollar", rlit "euro"]

/-- app.py line 97:
`(\d+\.?\d*)\s*([a-zA-Z]{2,}|rupee|yen|dollar|euro)\s*(?:to|in)?\s*([a-zA-Z]{2,}|rupee|yen|dollar|euro)`. -/
def rule1Regex : Regex :=
  rchain [numGroup, Regex.many pyIsSpace, Regex.group 2 word1,
    Regex.many pyIsSpace, Regex.opt (ralts [rlit "to", rlit "in"]),
    Regex.many pyIsSpace, Regex.group 3 word1]

/-- The subpattern `[a-zA-Z]{3}`. -/
def alpha3 : Regex :=
  rchain [Regex.cls pyIsAlpha, Regex.cls pyIsAlpha, Regex.cls pyIsAlpha]

/-- The currency token of rules 2 and 3: `usd|eur|inr|jpy|gbp|[a-zA-Z]{3}`. -/
def cur3 : Regex :=
  ralts [rlit "usd", rlit "eur", rlit "inr", rlit "jpy", rlit "gbp", alpha3]

/-- A single `\d`. -/
def dig : Regex := Regex.cls pyIsDigit

/-- The subpattern `\d{4}-\d{2}-\d{2}`. -/
def dateRe : Regex :=
  rchain [dig, dig, dig, dig, rlit "-", dig, dig, rlit "-", dig, dig]

/-- app.py line 126:
`(usd|eur|inr|jpy|gbp|[a-zA-Z]{3})\s*(?:to)?\s*(usd|eur|inr|jpy|gbp|[a-zA-Z]{3}).*on\s*(\d{4}-\d{2}-\d{2})`. -/
def rule2Regex : Regex :=
  rchain [Regex.group 1 cur3, Regex.many pyIsSpace, Regex.opt (rlit "to"),
    Regex.many pyIsSpace, Regex.group 2 cur3, Regex.many pyDot, rlit "on",
    Regex.many pyIsSpace, Regex.group 3 dateRe]

/-- app.py line 146:
`(usd|eur|inr|jpy|gbp|[a-zA-Z]{3})\s*to\s*(usd|eur|inr|jpy|gbp|[a-zA-Z]{3}).*last\s*(\d+)\s*days`. -/
def rule3Regex : Regex :=
  rchain [Regex.group 1 cur3, Regex.many pyIsSpace, rlit "to",
    Regex.many pyIsSpace, Regex.group 2 cur3, Regex.many pyDot, rlit "last",
    Regex.many pyIsSpace, Regex.group 3 (rchain [dig, Regex.many pyIsDigit]),
    Regex.many pyIsSpace, rlit "days"]

/-- Digits of an ASCII numeral to a natural number (Python `int`). -/
def digitsToNat (l : List Char) : Nat :=
  l.foldl (fun n c => 10 * n + (c.toNat - 48)) 0

/-- Python `float()` on a numeral matched by `\d+\.?\d*`, as an exact
rational (no claim depends on binary-float rounding). -/
def parseDecimal (l : List Char) : ℚ :=
  match l.splitOn '.' with
  | [ip] => (digitsToNat ip : ℚ)
  | [ip, fp] => (digitsToNat ip : ℚ) + (digitsToNat fp : ℚ) / ((10 : ℚ) ^ fp.length)
  | _ => 0

/-- app.py lines 101-107: the natural-language synonym table. -/
def mapping : List (String × String) :=
  [("rupee", "INR"), ("yen", "JPY"), ("dollar", "USD"), ("euro", "EUR"), ("pound", "GBP")]

/-- app.py lines 108-109: `mapping.get(tok.lower(), tok.upper())`. -/
def normalizeCur (tok : String) : String :=
  (mapping.lookup (pyLowerS tok)).getD (pyUpperS tok)

/-- The `"rates"` object of a `/latest` or single-date upstream response:
currency code to value. -/
abbrev RateMap := List (String × ℚ)

/-- The `"rates"` object of a date-range upstream response:
date to per-currency rates. -/
abbrev RatesObj := List (String × RateMap)

/-- The upstream Frankfurter API, one field per endpoint consumed.
`none` models a response JSON without a `"rates"` field.  `latest` is keyed
by the request parameters `amount`, `from`, `to` (app.py line 112);
`onDate` by `date`, `from`, `to` (line 131); `range` by the `days` count,
`from`, `to` (lines 152-156 — the concrete start/end dates are a function
of `days` and the current date, which only feed the URL, so the response
is modelled as a function of `days`). -/
structure Env where
  latest : ℚ → String → String → Option RateMap
  onDate : String → String → String → Option RateMap
  range : Nat → String → String → Option RatesObj

/-- The observable outcome of a `/chatbot` request.  The f-string
`response` texts are elided; each constructor carries the structured
fields of the corresponding `jsonify` payload.  `zeroDivCrash` models the
uncaught Python `ZeroDivisionError` raised by `converted / float(amount)`
at app.py line 120 when the matched amount is `0`. -/
inductive ChatResult where
  | convert (amountStr fromC toC : String) (converted rate : ℚ) : ChatResult
  | rateOnDate (fromC toC date : String) (rate : ℚ) : ChatResult
  | rangeQuery (fromC toC : String) (days : Nat) (data : RatesObj) : ChatResult
  | fallback : ChatResult
  | zeroDivCrash : ChatResult
  deriving DecidableEq, Repr

/-- Rule 1's matched amount as a string (`match.groups()[0]`). -/
def g1amtStr (gs : Groups) : String := String.mk ((gs.lookup 1).getD [])

/-- Rule 1's amount as a number: `float(amount)` (app.py line 112). -/
def g1amt (gs : Groups) : ℚ := parseDecimal ((gs.lookup 1).getD [])

/-- Rule 1's normalized source currency (app.py line 108). -/
def g1from (gs : Groups) : String := normalizeCur (String.mk ((gs.lookup 2).getD []))

/-- Rule 1's normalized target currency (app.py line 109). -/
def g1to (gs : Groups) : String := normalizeCur (String.mk ((gs.lookup 3).getD []))

/-- Rules 2/3's uppercased source currency (app.py lines 129, 149). -/
def g2from (gs : Groups) : String := pyUpperS (String.mk ((gs.lookup 1).getD []))

/-- Rules 2/3's uppercased target currency (app.py lines 129, 149). -/
def g2to (gs : Groups) : String := pyUpperS (String.mk ((gs.lookup 2).getD []))

/-- Rule 2's matched date string. -/
def g2date (gs : Groups) : String := String.mk ((gs.lookup 3).getD [])

/-- Rule 3's `int(days)` (app.py line 150). -/
def g3days (gs : Groups) : Nat := digitsToNat ((gs.lookup 3).getD [])

/-- app.py lines 97-121 (chatbot rule 1): on a regex match, call upstream
`/latest`; if the response has a usable rate, answer (or raise
ZeroDivisionError when the amount is zero); otherwise produce nothing, so
control continues with rule 2. -/
def rule1Try (env : Env) (m : List Char) : Option ChatResult :=
  match research rule1Regex m with
  | none => none
  | some gs =>
    match env.latest (g1amt gs) (g1from gs) (g1to gs) with
    | none => none
    | some rates =>
      match rates.lookup (g1to gs) with
      | none => none
      | some converted =>
        some (if g1amt gs = 0 then ChatResult.zeroDivCrash
          else ChatResult.convert (g1amtStr gs) (g1from gs) (g1to gs) converted
            (converted / g1amt gs))

/-- app.py lines 126-141 (chatbot rule 2, specific-date queries). -/
def rule2Try (env : Env) (m : List Char) : Option ChatResult :=
  match research rule2Regex m with
  | none => none
  | some gs =>
    match env.onDate (g2date gs) (g2from gs) (g2to gs) with
    | none => none
    | some rates =>
      match rates.lookup (g2to gs) with
      | none => none
      | some rate => some (ChatResult.rateOnDate (g2from gs) (g2to gs) (g2date gs) rate)

/-- app.py lines 146-163 (chatbot rule 3, historical range queries);
the code only checks `"rates" in res` and returns the object raw. -/
def rule3Try (env : Env) (m : List Char) : Option ChatResult :=
  match research rule3Regex m with
  | none => none
  | some gs =>
    match env.range (g3days gs) (g2from gs) (g2to gs) with
    | none => none
    | some obj => some (ChatResult.rangeQuery (g2from gs) (g2to gs) (g3days gs) obj)

/-- Sequential fallthrough after rule 1: rule 2, then rule 3, then the
fixed help response (app.py line 168). -/
def rulesFrom2 (env : Env) (m : List Char) : ChatResult :=
  match rule2Try env m with
  | some r => r
  | none =>
    match rule3Try env m with
    | some r => r
    | none => ChatResult.fallback

/-- app.py lines 89-168: the `/chatbot` handler.  The message is lowercased
and stripped (line 92), then the three rules run in order; a rule that
matches but finds no usable upstream rate produces nothing and control
falls to the next rule. -/
def chatbot (env : Env) (raw : String) : ChatResult :=
  match rule1Try env (pyStrip (pyLowerL raw.data)) with
  | some r => r
  | none => rulesFrom2 env (pyStrip (pyLowerL raw.data))

/-- app.py lines 70-77: the stride sampler of `/historical`.
`step = max(1, len(sorted_data) // maxPoints)`; keep the elements whose
index `i` satisfies `i % step == 0`, in order. -/
def sample {α : Type} (l : List α) (maxPoints : Nat) : List α :=
  (l.enum.filter (fun p => p.1 % (max 1 (l.length / maxPoints)) == 0)).map Prod.snd

/-- The observable outcome of a `/convert` request.  `keyErrorCrash`
models the uncaught Python `KeyError` raised by `res["rates"]` at app.py
line 28 when the upstream response has no `"rates"` field. -/
inductive ConvertResult where
  | badRequest (msg : String) : ConvertResult
  | ok (fromC toC : String) (amount : ℚ) (converted : Option ℚ) (rate : Option ℚ) : ConvertResult
  | keyErrorCrash : ConvertResult
  deriving DecidableEq, Repr

/-- app.py lines 15-37: the `/convert` handler.  `amountP = none` models a
missing or unparseable `amount` query parameter (Flask's `type=float`
yields `None` for both).  The second component records whether the
outbound `requests.get` (line 26) was reached.  The `if not amount` guard
(line 21) fires on `None` and on `0`; the rate (line 29) is
`converted / amount` when both are truthy, else `None` — in the branch
reached, `amount` is already nonzero, so only `converted`'s truthiness
matters, but the amount conjunct is kept for literalness. -/
def convert_currency (amountP : Option ℚ) (fromP toP : Option String)
    (upstream : Option RateMap) : ConvertResult × Bool :=
  match amountP with
  | none => (ConvertResult.badRequest "Missing amount", false)
  | some amount =>
    if amount = 0 then (ConvertResult.badRequest "Missing amount", false)
    else
      match upstream with
      | none => (ConvertResult.keyErrorCrash, true)
      | some rates =>
        match rates.lookup (pyUpperS (toP.getD "INR")) with
        | some c =>
          (ConvertResult.ok (pyUpperS (fromP.getD "USD")) (pyUpperS (toP.getD "INR"))
            amount (some c)
            (if amount ≠ 0 ∧ c ≠ 0 then some (c / amount) else none), true)
        | none =>
          (ConvertResult.ok (pyUpperS (fromP.getD "USD")) (pyUpperS (toP.getD "INR"))
            amount none none, true)

/-- The observable outcome of a `/historical` request.  `keyErrorCrash`
models the uncaught `KeyError` of `data[to_currency]` at app.py line 77. -/
inductive HistResult where
  | badRange (msg : String) : HistResult
  | noData (msg : String) : HistResult
  | ok (fromC toC rangeS : String) (dates : List String) (rates : List ℚ) : HistResult
  | keyErrorCrash : HistResult
  deriving DecidableEq, Repr

/-- app.py lines 49-58: the accepted range tokens.  The four branches pick
different start dates, which only feed the upstream URL (absorbed into the
upstream parameter here), so validity collapses to one membership test. -/
def isValidRange (range_param : String) : Bool :=
  ["7d", "7days", "30d", "1m", "30days", "365d", "1y", "year", "all", "max"].contains
    range_param

/-- app.py lines 74-77: walk the (already sampled) date-sorted entries,
pairing each date with `data[to_currency]`; `none` models the `KeyError`
raised when some entry lacks the target currency. -/
def extractPairs (to_currency : String) : List (String × RateMap) →
    Option (List (String × ℚ))
  | [] => some []
  | (d, mm) :: rest =>
    match mm.lookup to_currency with
    | none => none
    | some r => (extractPairs to_currency rest).map (fun ps => (d, r) :: ps)

/-- app.py lines 41-85: the `/historical` handler.  `upstream = none`
models a response without a `"rates"` field; `some obj` is the `"rates"`
object as an association list in upstream key order.  Python's
`sorted(res["rates"].items())` compares `(date, value)` tuples, but dict
keys are unique so it orders by date; it is modelled by a stable
insertion sort on the date key.  The second component records whether the
outbound `requests.get` (line 62) was reached. -/
def historical_data (fromP toP rangeP : Option String)
    (upstream : Option RatesObj) : HistResult × Bool :=
  if isValidRange (pyLowerS (rangeP.getD "7d")) then
    match upstream with
    | none => (HistResult.noData "No data available", true)
    | some obj =>
      match extractPairs (pyUpperS (toP.getD "INR"))
          (sample (List.insertionSort (fun a b => a.1 ≤ b.1) obj) 100) with
      | none => (HistResult.keyErrorCrash, true)
      | some ps =>
        (HistResult.ok (pyUpperS (fromP.getD "USD")) (pyUpperS (toP.getD "INR"))
          (pyLowerS (rangeP.getD "7d")) (ps.map Prod.fst) (ps.map Prod.snd), true)
  else (HistResult.badRange "Invalid range. Use 7d, 30d/1m, 365d/1y, or all/max", false)

/-- Whole-token acceptor of rule 1's currency-word alternation
`[a-zA-Z]{2,}|rupee|yen|dollar|euro`. -/
def isCurrencyWord1 (s : String) : Bool :=
  (2 ≤ s.length && s.data.all pyIsAlpha)
    || (s == "rupee" || s == "yen" || s == "dollar" || s == "euro")

/-- Whole-token acceptor of rules 2/3's currency-token alternation
`usd|eur|inr|jpy|gbp|[a-zA-Z]{3}`. -/
def isCurrencyWord23 (s : String) : Bool :=
  (s == "usd" || s == "eur" || s == "inr" || s == "jpy" || s == "gbp")
    || (s.length == 3 && s.data.all pyIsAlpha)

/-- A one-entry range response used by concrete test environments. -/
def objRange : RatesObj := [("2024-01-01", [("EUR", 1)])]

/-- Test environment: `/latest` and date lookups yield no `"rates"` field,
range queries succeed with `objRange`. -/
def envRange : Env where
  latest := fun _ _ _ => none
  onDate := fun _ _ _ => none
  range := fun _ _ _ => some objRange

/-- Test environment: `/latest` always answers with a zero EUR rate (the
shape the upstream contract prescribes for a zero-amount conversion). -/
def envZero : Env where
  latest := fun _ _ _ => some [("EUR", 0)]
  onDate := fun _ _ _ => none
  range := fun _ _ _ => none

/-- Test environment: `/latest` always answers with EUR rate 2. -/
def envTwo : Env where
  latest := fun _ _ _ => some [("EUR", 2)]
  onDate := fun _ _ _ => none
  range := fun _ _ _ => none

/-- Claim C1, counterexample: for the 102-element series, the stride is
`max(1, 102 / 100) = 1`, every index satisfies `i % 1 == 0`, and the
sampler returns all 102 elements — more than `maxPoints + 1 = 101`. -/
theorem c1_counterexample :
    (sample (List.range 102) 100).length = 102 ∧
      ¬ (sample (List.range 102) 100).length ≤ 100 + 1 := by
  constructor
  · rfl
  · intro h
    have : (102 : Nat) ≤ 101 := by
      have he : (sample (List.range 102) 100).length = 102 := rfl
      rw [he] at h
      exact h
    omega

/-- Claim C4: on the message `"0 usd to eur"`, rule 1 matches with amount
`0`; with the upstream answering `{"rates": {"EUR": 0.0}}` as the upstream
contract prescribes, the handler evaluates `converted / float("0")` and
raises ZeroDivisionError instead of treating the rule as failed. -/
theorem c4_zero_amount_crash : chatbot envZero "0 usd to eur" = ChatResult.zeroDivCrash := by
  decide

/-- Claim C3, counterexample: the message `"100 USD to EUR last 30 days"`
matches rule 1's regex, the rate lookup fails (`envRange.latest` returns a
body with no rates), and the handler nevertheless returns rule 3's range
answer — rule processing does not terminate at rule 1. -/
theorem c3_counterexample :
    research rule1Regex (pyStrip (pyLowerL ("100 USD to EUR last 30 days").data)) =
        some [(1, ['1', '0', '0']), (2, ['u', 's', 'd']), (3, ['e', 'u', 'r'])] ∧
      envRange.latest 100 "USD" "EUR" = none ∧
      chatbot envRange "100 USD to EUR last 30 days" =
        ChatResult.rangeQuery "USD" "EUR" 30 objRange := by
  refine ⟨by decide, rfl, by decide⟩

/-- Claim C5, counterexample: a `/convert` request with a valid amount
whose upstream response has no `"rates"` field does not surface a
"no data available" error — `res["rates"]` raises an uncaught KeyError. -/
theorem c5_counterexample :
    convert_currency (some 5) none none none = (ConvertResult.keyErrorCrash, true) := by
  decide

unseal Rat.mul Rat.inv in
/-- Claim C6, counterexample: the two-letter token `"us"` is accepted by
rule 1's currency-word pattern and the chatbot answers a conversion whose
normalized source code `"US"` has length 2, not 3. -/
theorem c6_counterexample :
    isCurrencyWord1 "us" = true ∧
      chatbot envTwo "5 us to eur" = ChatResult.convert "5" "US" "EUR" 2 (2 / 5) ∧
      ¬ ("US".length = 3) := by
  refine ⟨by decide, by decide, by decide⟩

/-- Claim C7: for every non-empty series and every `maxPoints`, index `0`
satisfies `0 % step == 0`, so the sampler keeps the first element: the
output is non-empty and starts with the input's first element. -/
theorem c7_first_element {α : Type} (l : List α) (m : Nat) (h : l ≠ []) :
    sample l m ≠ [] ∧ (sample l m).head? = l.head? := by
  cases l with
  | nil => exact absurd rfl h
  | cons x xs =>
    have hs : sample (x :: xs) m =
        x :: ((List.enumFrom 1 xs).filter
          (fun p => p.1 % (max 1 ((x :: xs).length / m)) == 0)).map Prod.snd := by
      simp [sample, List.enum, List.enumFrom, List.filter_cons, Nat.zero_mod]
    rw [hs]
    exact ⟨List.cons_ne_nil _ _, rfl⟩

/-- Witness for `c7_first_element` at the one-element series `[(3 : ℚ)]`. -/
theorem c7_witness :
    sample [(3 : ℚ)] 100 ≠ [] ∧ (sample [(3 : ℚ)] 100).head? = [(3 : ℚ)].head? :=
  c7_first_element [(3 : ℚ)] 100 (by decide)

/-- Claim C8: a `/convert` request whose amount is missing (or unparseable,
which Flask also maps to `None`) or equal to `0` fails the `if not amount`
guard and returns the fixed 400 response before the upstream call. -/
theorem c8_missing_or_zero_amount (amountP : Option ℚ) (fromP toP : Option String)
    (u : Option RateMap) (h : amountP = none ∨ amountP = some 0) :
    convert_currency amountP fromP toP u =
      (ConvertResult.badRequest "Missing amount", false) := by
  rcases h with h | h <;> subst h <;> simp [convert_currency]

/-- Witness for `c8_missing_or_zero_amount` at `amount = 0`. -/
theorem c8_witness :
    convert_currency (some 0) none none (some [("INR", 3)]) =
      (ConvertResult.badRequest "Missing amount", false) :=
  c8_missing_or_zero_amount (some 0) none none (some [("INR", 3)]) (Or.inr rfl)

/-- Claim C10: a negative amount passes the `if not amount` guard (only
`None` and `0` are falsy), the upstream call is made, and when a nonzero
converted value comes back the response carries the amount, the converted
value, and `rate = converted / amount`. -/
theorem c10_negative_amount (a : ℚ) (fromP toP : Option String) (rates : RateMap)
    (c : ℚ) (ha : a < 0) (hc : rates.lookup (pyUpperS (toP.getD "INR")) = some c)
    (hcz : c ≠ 0) :
    convert_currency (some a) fromP toP (some rates) =
      (ConvertResult.ok (pyUpperS (fromP.getD "USD")) (pyUpperS (toP.getD "INR"))
        a (some c) (some (c / a)), true) := by
  have haz : a ≠ 0 := ne_of_lt ha
  simp [convert_currency, haz, hc, hcz]

/-- Witness for `c10_negative_amount` at `amount = -5` with an INR rate 3. -/
theorem c10_witness :
    convert_currency (some (-5)) none none (some [("INR", 3)]) =
      (ConvertResult.ok (pyUpperS ((none : Option String).getD "USD"))
        (pyUpperS ((none : Option String).getD "INR")) (-5) (some 3)
        (some (3 / (-5))), true) :=
  c10_negative_amount (-5) none none [("INR", 3)] 3 (by decide) (by decide) (by decide)

/-- Lengths are preserved by the model of Python `str.upper()`. -/
theorem pyUpperS_length (s : String) : (pyUpperS s).length = s.length := by
  cases s with
  | mk d => simp [pyUpperS, String.length]

/-- Every value of the synonym table is one of the five major codes. -/
theorem mapping_lookup_mem (k v : String) (h : mapping.lookup k = some v) :
    v ∈ ["INR", "JPY", "USD", "EUR", "GBP"] := by
  unfold mapping at h
  simp only [List.lookup] at h
  repeat' split at h
  all_goals simp_all

/-- Claim C6, amended: tokens accepted by rules 2/3 uppercase to 3-letter
codes; a token accepted by rule 1's word pattern normalizes either to one
of the five synonym targets (3 letters) or to its own uppercasing, whose
length equals the token's length and is only bounded below by 2. -/
theorem c6_amended :
    (∀ s : String, isCurrencyWord1 s = true →
        2 ≤ (normalizeCur s).length ∧
          (normalizeCur s = pyUpperS s ∨
            normalizeCur s ∈ ["INR", "JPY", "USD", "EUR", "GBP"])) ∧
      (∀ s : String, isCurrencyWord23 s = true → (pyUpperS s).length = 3) := by
  constructor
  · intro s hs
    cases hmap : mapping.lookup (pyLowerS s) with
    | some code =>
      have hm : normalizeCur s = code := by simp [normalizeCur, hmap]
      have hcode := mapping_lookup_mem _ _ hmap
      refine ⟨?_, Or.inr (hm ▸ hcode)⟩
      rw [hm]
      simp only [List.mem_cons, List.not_mem_nil, or_false] at hcode
      rcases hcode with h | h | h | h | h <;> subst h <;> decide
    | none =>
      have hm : normalizeCur s = pyUpperS s := by simp [normalizeCur, hmap]
      refine ⟨?_, Or.inl hm⟩
      rw [hm, pyUpperS_length]
      unfold isCurrencyWord1 at hs
      simp only [Bool.or_eq_true, Bool.and_eq_true, decide_eq_true_eq, beq_iff_eq] at hs
      rcases hs with ⟨hlen, _⟩ | (((h | h) | h) | h)
      · exact hlen
      all_goals (subst h; exact absurd hmap (by decide))
  · intro s hs
    rw [pyUpperS_length]
    unfold isCurrencyWord23 at hs
    simp only [Bool.or_eq_true, Bool.and_eq_true, decide_eq_true_eq, beq_iff_eq] at hs
    rcases hs with ((((h | h) | h) | h) | h) | ⟨h, _⟩ <;>
      first
      | exact h
      | (subst h; decide)

/-- Counting an index predicate over enumerated entries is counting it
over the corresponding index range. -/
theorem countP_enumFrom {α : Type} (f : Nat → Bool) (l : List α) :
    ∀ k : Nat, (List.enumFrom k l).countP (fun p => f p.1) =
      (List.range' k l.length).countP f := by
  induction l with
  | nil => intro k; rfl
  | cons x xs ih =>
    intro k
    simp only [List.enumFrom, List.length_cons, List.range', List.countP_cons, ih (k + 1)]

/-- The sampler's output length is the number of indices below the input
length that are multiples of the stride. -/
theorem sample_length_count {α : Type} (l : List α) (m : Nat) :
    (sample l m).length =
      (List.range l.length).countP (fun i => i % (max 1 (l.length / m)) == 0) := by
  unfold sample
  rw [List.length_map, ← List.countP_eq_length_filter, List.range_eq_range']
  have h := countP_enumFrom (fun i => i % (max 1 (l.length / m)) == 0) l 0
  simpa [List.enum] using h

/-- There are at most `(n - 1) / s + 1` multiples of a positive stride `s`
among `0, …, n - 1`. -/
theorem countP_mod_le (s : Nat) (hs : 0 < s) :
    ∀ n : Nat, (List.range n).countP (fun i => i % s == 0) ≤ (n - 1) / s + 1 := by
  intro n
  induction n with
  | zero => simp
  | succ n ih =>
    rw [List.range_succ, List.countP_append]
    have hsing : (List.countP (fun i => i % s == 0) [n]) =
        if n % s = 0 then 1 else 0 := by
      simp [List.countP_cons]
    rw [hsing]
    have hred : (n + 1 - 1) / s = n / s := by simp
    by_cases hn : n % s = 0
    · rw [if_pos hn]
      have hcnt : (List.range n).countP (fun i => i % s == 0) ≤ n / s := by
        cases n with
        | zero => simp
        | succ p =>
          obtain ⟨q, hq⟩ := Nat.dvd_of_mod_eq_zero hn
          have hq1 : 1 ≤ q := by
            rcases Nat.eq_zero_or_pos q with h0 | h1
            · subst h0; omega
            · exact h1
          have hsq : s * q = s * (q - 1) + s := by
            have hq2 : q = (q - 1) + 1 := by omega
            calc s * q = s * ((q - 1) + 1) := by rw [← hq2]
            _ = s * (q - 1) + s := by rw [Nat.mul_succ]
          have h1 : (p + 1 - 1) / s = q - 1 := by
            have he : p + 1 - 1 = s * (q - 1) + (s - 1) := by omega
            rw [he, Nat.mul_add_div hs, Nat.div_eq_of_lt (by omega)]
            omega
          have h2 : (p + 1) / s = q := by
            rw [hq, Nat.mul_div_cancel_left _ hs]
          omega
      omega
    · rw [if_neg hn]
      have hmono : (n - 1) / s ≤ n / s := Nat.div_le_div_right (by omega)
      omega

/-- Claim C1, amended: with `maxPoints = 100` the sampler returns at most
`2 * maxPoints - 1 = 199` points (tight at a 199-element input, where the
stride is still 1), not `maxPoints + 1 = 101`. -/
theorem c1_amended {α : Type} (l : List α) : (sample l 100).length ≤ 199 := by
  rw [sample_length_count]
  have hs0 : 0 < max 1 (l.length / 100) := lt_of_lt_of_le one_pos (le_max_left 1 _)
  have hb := countP_mod_le (max 1 (l.length / 100)) hs0 l.length
  rcases le_or_lt l.length 199 with hle | hgt
  · have hd : (l.length - 1) / max 1 (l.length / 100) ≤ l.length - 1 :=
      Nat.div_le_self _ _
    omega
  · have h2 : 2 ≤ l.length / 100 := by
      have h200 : 200 / 100 ≤ l.length / 100 := Nat.div_le_div_right (by omega)
      simpa using h200
    have h100 : max 1 (l.length / 100) = l.length / 100 := Nat.max_eq_right (by omega)
    have hmod := Nat.div_add_mod l.length 100
    have hmlt : l.length % 100 < 100 := Nat.mod_lt _ (by omega)
    have hle1 : l.length - 1 ≤ 100 * (l.length / 100) + 98 := by omega
    have hd1 : (l.length - 1) / (l.length / 100) ≤
        (100 * (l.length / 100) + 98) / (l.length / 100) := Nat.div_le_div_right hle1
    have hd2 : (100 * (l.length / 100) + 98) / (l.length / 100) =
        100 + 98 / (l.length / 100) := by
      rw [mul_comm]
      exact Nat.mul_add_div (by omega) _ _
    have hd3 : 98 / (l.length / 100) ≤ 49 := by
      have h982 : 98 / (l.length / 100) ≤ 98 / 2 := Nat.div_le_div_left h2 (by omega)
      simpa using h982
    rw [h100] at hb ⊢
    omega

/-- Witness for `c6_amended` at the tokens `"abc"` and `"usd"`. -/
theorem c6_amended_witness :
    (2 ≤ (normalizeCur "abc").length ∧
        (normalizeCur "abc" = pyUpperS "abc" ∨
          normalizeCur "abc" ∈ ["INR", "JPY", "USD", "EUR", "GBP"])) ∧
      (pyUpperS "usd").length = 3 :=
  ⟨c6_amended.1 "abc" (by decide), c6_amended.2 "usd" (by decide)⟩

/-- Claim C5, amended: when the upstream response has no `"rates"` field,
`/historical` (with a valid range token) surfaces the 404 "No data
available" error, but `/convert` (with a usable amount) instead raises an
uncaught KeyError at `res["rates"]`. -/
theorem c5_amended :
    (∀ fromP toP rangeP : Option String,
        isValidRange (pyLowerS (rangeP.getD "7d")) = true →
          historical_data fromP toP rangeP none =
            (HistResult.noData "No data available", true)) ∧
      (∀ (a : ℚ) (fromP toP : Option String), a ≠ 0 →
        convert_currency (some a) fromP toP none =
          (ConvertResult.keyErrorCrash, true)) := by
  constructor
  · intro fromP toP rangeP hv
    simp [historical_data, hv]
  · intro a fromP toP ha
    simp [convert_currency, ha]

/-- Witness for `c5_amended` at default parameters and amount `5`. -/
theorem c5_amended_witness :
    historical_data none none none none = (HistResult.noData "No data available", true) ∧
      convert_currency (some 5) none none none = (ConvertResult.keyErrorCrash, true) :=
  ⟨c5_amended.1 none none none (by decide), c5_amended.2 5 none none (by decide)⟩

/-- Claim C3, amended: a message whose rule-1 regex matches but whose rate
lookup fails (the upstream `/latest` body has no `"rates"` field, or no
entry for the target currency) DOES fall through: the chatbot's answer is
whatever rules 2, 3 and the fallback produce. -/
theorem c3_amended (env : Env) (raw : String) (gs : Groups)
    (hm : research rule1Regex (pyStrip (pyLowerL raw.data)) = some gs)
    (hfail : ∀ rates, env.latest (g1amt gs) (g1from gs) (g1to gs) = some rates →
      rates.lookup (g1to gs) = none) :
    chatbot env raw = rulesFrom2 env (pyStrip (pyLowerL raw.data)) := by
  have h1 : rule1Try env (pyStrip (pyLowerL raw.data)) = none := by
    cases hL : env.latest (g1amt gs) (g1from gs) (g1to gs) with
    | none => simp [rule1Try, hm, hL]
    | some rates => simp [rule1Try, hm, hL, hfail rates hL]
  simp [chatbot, h1]

/-- Witness for `c3_amended` on `"100 USD to EUR last 30 days"` in the
environment whose `/latest` has no rates. -/
theorem c3_amended_witness :
    chatbot envRange "100 USD to EUR last 30 days" =
      rulesFrom2 envRange (pyStrip (pyLowerL ("100 USD to EUR last 30 days").data)) :=
  c3_amended envRange "100 USD to EUR last 30 days"
    [(1, ['1', '0', '0']), (2, ['u', 's', 'd']), (3, ['e', 'u', 'r'])]
    (by decide) (fun rates h => by simp [envRange] at h)

/-- Claim C2: on `"USD to EUR last 30 days"` (lowercased), rule 1's regex
does match — it extracts amount `"30"`, tokens `"da"`, `"ys"` out of
`"last 30 days"` — but for any upstream that has no `YS` rate for the
nonsense pair `DA → YS` the rule-1 lookup fails, rule 2's regex does not
match, and the chatbot returns rule 3's range answer
`RangeQuery{from: "USD", to: "EUR", days: 30}`. -/
theorem c2_range_query (env : Env) (d : RatesObj)
    (h1 : ∀ rates, env.latest 30 "DA" "YS" = some rates → rates.lookup "YS" = none)
    (h2 : env.range 30 "USD" "EUR" = some d) :
    chatbot env "USD to EUR last 30 days" = ChatResult.rangeQuery "USD" "EUR" 30 d := by
  have hre1 : research rule1Regex (pyStrip (pyLowerL ("USD to EUR last 30 days").data)) =
      some [(1, ['3', '0']), (2, ['d', 'a']), (3, ['y', 's'])] := by decide
  have hre2 : research rule2Regex (pyStrip (pyLowerL ("USD to EUR last 30 days").data)) =
      none := by decide
  have hre3 : research rule3Regex (pyStrip (pyLowerL ("USD to EUR last 30 days").data)) =
      some [(1, ['u', 's', 'd']), (2, ['e', 'u', 'r']), (3, ['3', '0'])] := by decide
  have hga : g1amt [(1, ['3', '0']), (2, ['d', 'a']), (3, ['y', 's'])] = 30 := by decide
  have hgf : g1from [(1, ['3', '0']), (2, ['d', 'a']), (3, ['y', 's'])] = "DA" := by decide
  have hgt : g1to [(1, ['3', '0']), (2, ['d', 'a']), (3, ['y', 's'])] = "YS" := by decide
  have hr1 : rule1Try env (pyStrip (pyLowerL ("USD to EUR last 30 days").data)) = none := by
    cases hL : env.latest 30 "DA" "YS" with
    | none => simp [rule1Try, hre1, hga, hgf, hgt, hL]
    | some rates => simp [rule1Try, hre1, hga, hgf, hgt, hL, h1 rates hL]
  have hr2 : rule2Try env (pyStrip (pyLowerL ("USD to EUR last 30 days").data)) = none := by
    simp [rule2Try, hre2]
  have h3f : g2from [(1, ['u', 's', 'd']), (2, ['e', 'u', 'r']), (3, ['3', '0'])] = "USD" := by
    decide
  have h3t : g2to [(1, ['u', 's', 'd']), (2, ['e', 'u', 'r']), (3, ['3', '0'])] = "EUR" := by
    decide
  have h3d : g3days [(1, ['u', 's', 'd']), (2, ['e', 'u', 'r']), (3, ['3', '0'])] = 30 := by
    decide
  have hr3 : rule3Try env (pyStrip (pyLowerL ("USD to EUR last 30 days").data)) =
      some (ChatResult.rangeQuery "USD" "EUR" 30 d) := by
    simp [rule3Try, hre3, h3f, h3t, h3d, h2]
  simp [chatbot, rulesFrom2, hr1, hr2, hr3]

/-- Witness for `c2_range_query` in the environment whose `/latest` has no
rates and whose range queries answer `objRange`. -/
theorem c2_witness :
    chatbot envRange "USD to EUR last 30 days" =
      ChatResult.rangeQuery "USD" "EUR" 30 objRange :=
  c2_range_query envRange objRange (fun rates h => by simp [envRange] at h) rfl

/-- The date/rate pairs produced by `extractPairs` carry exactly the dates
of the entries it walked, in order. -/
theorem extractPairs_map_fst (t : String) :
    ∀ (L : List (String × RateMap)) (ps : List (String × ℚ)),
      extractPairs t L = some ps → ps.map Prod.fst = L.map Prod.fst := by
  intro L
  induction L with
  | nil =>
    intro ps h
    simp only [extractPairs, Option.some.injEq] at h
    subst h
    rfl
  | cons e rest ih =>
    intro ps h
    obtain ⟨d, mm⟩ := e
    simp only [extractPairs] at h
    cases hl : mm.lookup t with
    | none => rw [hl] at h; exact absurd h (by simp)
    | some r =>
      rw [hl] at h
      cases hrest : extractPairs t rest with
      | none => rw [hrest] at h; exact absurd h (by simp)
      | some ps2 =>
        rw [hrest] at h
        simp only [Option.map_some', Option.some.injEq] at h
        subst h
        simp [ih ps2 hrest]

/-- Each date/rate pair produced by `extractPairs` comes from an entry of
the walked list whose rates contain the target currency with that value. -/
theorem extractPairs_mem (t : String) :
    ∀ (L : List (String × RateMap)) (ps : List (String × ℚ)),
      extractPairs t L = some ps →
        ∀ pr ∈ ps, ∃ mm, (pr.1, mm) ∈ L ∧ mm.lookup t = some pr.2 := by
  intro L
  induction L with
  | nil =>
    intro ps h pr hpr
    simp only [extractPairs, Option.some.injEq] at h
    subst h
    exact absurd hpr (List.not_mem_nil pr)
  | cons e rest ih =>
    intro ps h pr hpr
    obtain ⟨d, mm⟩ := e
    simp only [extractPairs] at h
    cases hl : mm.lookup t with
    | none => rw [hl] at h; exact absurd h (by simp)
    | some r =>
      rw [hl] at h
      cases hrest : extractPairs t rest with
      | none => rw [hrest] at h; exact absurd h (by simp)
      | some ps2 =>
        rw [hrest] at h
        simp only [Option.map_some', Option.some.injEq] at h
        subst h
        rcases List.mem_cons.mp hpr with hpr0 | hpr2
        · subst hpr0
          exact ⟨mm, List.mem_cons_self _ _, hl⟩
        · obtain ⟨mm2, hmem, hlk⟩ := ih ps2 hrest pr hpr2
          exact ⟨mm2, List.mem_cons_of_mem _ hmem, hlk⟩

/-- The sampler's output is a sublist of its input. -/
theorem sample_sublist {α : Type} (l : List α) (m : Nat) :
    List.Sublist (sample l m) l := by
  unfold sample
  have h1 : List.Sublist
      (l.enum.filter (fun p => p.1 % (max 1 (l.length / m)) == 0)) l.enum :=
    List.filter_sublist _
  have h2 := List.Sublist.map Prod.snd h1
  rwa [List.enum_map_snd] at h2

/-- Sorting the upstream entries by date key yields a key-sorted list. -/
theorem insertionSort_key_sorted (obj : RatesObj) :
    List.Sorted (fun a b : String × RateMap => a.1 ≤ b.1)
      (List.insertionSort (fun a b => a.1 ≤ b.1) obj) := by
  haveI : IsTotal (String × RateMap) (fun a b => a.1 ≤ b.1) :=
    ⟨fun a b => le_total a.1 b.1⟩
  haveI : IsTrans (String × RateMap) (fun a b => a.1 ≤ b.1) :=
    ⟨fun _ _ _ hab hbc => le_trans hab hbc⟩
  exact List.sorted_insertionSort _ _

/-- Claim C9: a successful `/historical` response has its dates sorted
ascending — whatever the key order of the upstream `"rates"` object — and
`rates[i]` is the rate paired with `dates[i]`: some entry of the upstream
object has key `dates[i]` and maps the target currency to `rates[i]`. -/
theorem c9_sorted_and_paired (fromP toP rangeP : Option String) (obj : RatesObj)
    (f t r : String) (dates : List String) (rates : List ℚ) (b : Bool)
    (h : historical_data fromP toP rangeP (some obj) = (HistResult.ok f t r dates rates, b)) :
    List.Sorted (fun a b : String => a ≤ b) dates ∧ rates.length = dates.length ∧
      ∀ (i : Nat) (hi : i < dates.length) (hj : i < rates.length),
        ∃ mm, (dates.get ⟨i, hi⟩, mm) ∈ obj ∧
          mm.lookup (pyUpperS (toP.getD "INR")) = some (rates.get ⟨i, hj⟩) := by
  unfold historical_data at h
  by_cases hv : isValidRange (pyLowerS (rangeP.getD "7d")) = true
  · rw [if_pos hv] at h
    have h2 : (match extractPairs (pyUpperS (toP.getD "INR"))
          (sample (List.insertionSort (fun a b => a.1 ≤ b.1) obj) 100) with
        | none => (HistResult.keyErrorCrash, true)
        | some ps =>
          (HistResult.ok (pyUpperS (fromP.getD "USD")) (pyUpperS (toP.getD "INR"))
            (pyLowerS (rangeP.getD "7d")) (List.map Prod.fst ps) (List.map Prod.snd ps),
            true)) = (HistResult.ok f t r dates rates, b) := h
    clear h
    cases hep : extractPairs (pyUpperS (toP.getD "INR"))
        (sample (List.insertionSort (fun a b => a.1 ≤ b.1) obj) 100) with
    | none => rw [hep] at h2; exact absurd h2 (by simp)
    | some ps =>
      rw [hep] at h2
      have hinj := h2
      simp only [Prod.mk.injEq, HistResult.ok.injEq] at hinj
      obtain ⟨⟨hf, ht, hr, hdates, hrates⟩, hb⟩ := hinj
      subst hdates
      subst hrates
      have hfst := extractPairs_map_fst _ _ ps hep
      have hsub := sample_sublist (List.insertionSort
        (fun a b : String × RateMap => a.1 ≤ b.1) obj) 100
      have hpair_sorted : List.Sorted (fun a b : String × RateMap => a.1 ≤ b.1)
          (sample (List.insertionSort (fun a b => a.1 ≤ b.1) obj) 100) :=
        List.Pairwise.sublist hsub (insertionSort_key_sorted obj)
      refine ⟨?_, by simp, ?_⟩
      · rw [hfst]
        exact List.Pairwise.map Prod.fst (fun a b hab => hab) hpair_sorted
      · intro i hi hj
        have hilen : i < ps.length := by
          simpa using hj
        have hmemi : ps.get ⟨i, hilen⟩ ∈ ps := List.get_mem ps i hilen
        obtain ⟨mm, hmem, hlk⟩ := extractPairs_mem _ _ ps hep _ hmemi
        refine ⟨mm, ?_, ?_⟩
        · have hmem2 : (ps.get ⟨i, hilen⟩).1 = (ps.map Prod.fst).get ⟨i, hi⟩ := by
            simp [List.get_map]
          have hin : ((ps.get ⟨i, hilen⟩).1, mm) ∈
              List.insertionSort (fun a b : String × RateMap => a.1 ≤ b.1) obj :=
            hsub.subset hmem
          have hperm := List.perm_insertionSort
            (fun a b : String × RateMap => a.1 ≤ b.1) obj
          rw [← hmem2]
          exact hperm.subset hin
        · have hmem3 : (ps.get ⟨i, hilen⟩).2 = (ps.map Prod.snd).get ⟨i, hj⟩ := by
            simp [List.get_map]
          rw [← hmem3]
          exact hlk
  · rw [if_neg hv] at h
    exact absurd h (by simp)

/-- Witness for `c9_sorted_and_paired` on a two-entry upstream object
whose keys arrive in descending order. -/
theorem c9_witness :
    List.Sorted (fun a b : String => a ≤ b) ["2024-01-01", "2024-01-02"] ∧
      ([2, 3] : List ℚ).length = (["2024-01-01", "2024-01-02"] : List String).length ∧
      ∀ (i : Nat) (hi : i < (["2024-01-01", "2024-01-02"] : List String).length)
        (hj : i < ([2, 3] : List ℚ).length),
        ∃ mm, ((["2024-01-01", "2024-01-02"] : List String).get ⟨i, hi⟩, mm) ∈
            [("2024-01-02", [("INR", 3)]), ("2024-01-01", [("INR", 2)])] ∧
          mm.lookup (pyUpperS ((none : Option String).getD "INR")) =
            some (([2, 3] : List ℚ).get ⟨i, hj⟩) :=
  c9_sorted_and_paired none none none
    [("2024-01-02", [("INR", 3)]), ("2024-01-01", [("INR", 2)])]
    "USD" "INR" "7d" ["2024-01-01", "2024-01-02"] [2, 3] true (by
      have hlt : ("2024-01-01" : String) < "2024-01-02" := by
        rw [String.lt_iff_toList_lt]
        decide
      have hc : ¬ (("2024-01-02" : String) ≤ "2024-01-01") := fun hle => hle hlt
      have hsort : List.insertionSort (fun a b : String × RateMap => a.1 ≤ b.1)
          [("2024-01-02", [("INR", 3)]), ("2024-01-01", [("INR", 2)])] =
          [("2024-01-01", [("INR", 2)]), ("2024-01-02", [("INR", 3)])] := by
        simp [List.insertionSort, List.orderedInsert, hc]
      simp only [historical_data, hsort]
      decide)
